import Mathlib

/-!
Verification of the step-detection engine and permission lifecycle of the
buildathon repository. The repository contains two variants of the same
React application:

- the basic variant, src/src/App.tsx (per-step increment 1, initial steps 0);
- the chat variant, src/client/src/App.tsx (per-step increment 1000,
  initial steps 1000).

Numbers are modelled as rationals. Math.sqrt is modelled as an explicit
function parameter msqrt of the motion handler, universally quantified in
the theorems; on concrete perfect-square inputs it is instantiated with
ratSqrt, which agrees with the real square root there. The application is
single-threaded and event-driven, so each trigger invocation (effect run,
gesture handler, button handler) is modelled as one atomic state
transition whose platform response is an explicit parameter.
-/

namespace Buildathon

/-- SMOOTHING constant, src/src/App.tsx line 4 and src/client/src/App.tsx line 4. -/
def SMOOTHING : ℚ := 0.8

/-- STEP_THRESHOLD constant, line 5 of both variants. -/
def STEP_THRESHOLD : ℚ := 1.1

/-- MIN_STEP_INTERVAL_MS constant, line 6 of both variants. -/
def MIN_STEP_INTERVAL_MS : ℚ := 400

/-- GRAVITY constant, line 7 of both variants. -/
def GRAVITY : ℚ := 9.81

/-- The two refs owned by the filter: filteredMagnitudeRef and lastStepAtRef. -/
structure FilterState where
  filteredMagnitude : ℚ
  lastStepAt : ℚ
deriving DecidableEq

/-- The magnitude-to-detection part of handleMotion (lines 42-56 of the basic
variant, lines 78-92 of the chat variant), taking the already computed
magnitude and the value of Date.now as arguments. Returns the new filter
state and whether a step was detected. -/
def processMagnitude (st : FilterState) (magnitude now : ℚ) : FilterState × Bool :=
  let filtered := SMOOTHING * st.filteredMagnitude + (1 - SMOOTHING) * magnitude
  let delta := |magnitude - filtered|
  if delta > STEP_THRESHOLD ∧ now - st.lastStepAt > MIN_STEP_INTERVAL_MS then
    (⟨filtered, now⟩, true)
  else
    (⟨filtered, st.lastStepAt⟩, false)

/-- A DeviceMotionEventAcceleration: each axis is a number or null. -/
structure Accel where
  x : Option ℚ
  y : Option ℚ
  z : Option ℚ
deriving DecidableEq

/-- The two acceleration fields of a DeviceMotionEvent, each possibly null. -/
structure MotionEvent where
  accelerationIncludingGravity : Option Accel
  acceleration : Option Accel
deriving DecidableEq

/-- Lines 32-33 of the basic variant: accelerationIncludingGravity with the
acceleration field as nullish fallback. -/
def accelOf (ev : MotionEvent) : Option Accel :=
  ev.accelerationIncludingGravity.orElse fun _ => ev.acceleration

/-- The argument of Math.sqrt in line 42 of the basic variant: x*x + y*y + z*z
with each missing axis coalesced to 0. -/
def magnitudeSq (a : Accel) : ℚ :=
  let x := a.x.getD 0
  let y := a.y.getD 0
  let z := a.z.getD 0
  x * x + y * y + z * z

/-- handleMotion (basic variant lines 31-57, chat variant lines 67-93):
null-coalesce the acceleration fields, bail out when both are null,
otherwise filter the magnitude and on detection add stepIncrement to the
step counter (the setSteps updater: +1 in the basic variant, +1000 in the
chat variant). msqrt models Math.sqrt. -/
def handleMotion (msqrt : ℚ → ℚ) (stepIncrement : ℕ)
    (st : FilterState) (steps : ℕ) (ev : MotionEvent) (now : ℚ) :
    FilterState × ℕ :=
  match accelOf ev with
  | none => (st, steps)
  | some a =>
      let magnitude := msqrt (magnitudeSq a)
      let r := processMagnitude st magnitude now
      (r.1, if r.2 then steps + stepIncrement else steps)

/-- Exact square root of a perfect-square rational, used to instantiate the
msqrt parameter on concrete inputs where it agrees with Math.sqrt. -/
def ratSqrt (q : ℚ) : ℚ :=
  (q.num.natAbs.sqrt : ℚ) / (q.den.sqrt : ℚ)

/-- Run the filter over a sequence of samples that all share one magnitude,
delivered at the listed times; counts the detected steps. -/
def runConst (m : ℚ) : FilterState → List ℚ → FilterState × ℕ
  | st, [] => (st, 0)
  | st, t :: ts =>
      let r := processMagnitude st m t
      let rest := runConst m r.1 ts
      (rest.1, (if r.2 then 1 else 0) + rest.2)

/-- Run handleMotion over a list of delivered motion events with their
timestamps. -/
def runMotion (msqrt : ℚ → ℚ) (stepIncrement : ℕ) :
    FilterState → ℕ → List (MotionEvent × ℚ) → FilterState × ℕ
  | st, steps, [] => (st, steps)
  | st, steps, (ev, t) :: rest =>
      let r := handleMotion msqrt stepIncrement st steps ev t
      runMotion msqrt stepIncrement r.1 r.2 rest

/-- The PermissionState union type, line 11 of both variants. -/
inductive PermissionState where
  | idle
  | pending
  | granted
  | denied
deriving DecidableEq

/-- Outcome of one call of DeviceMotionEvent.requestPermission: the promise
resolves with the string granted, resolves with any other status string, or
rejects (throws into the catch handler). -/
inductive PermissionResult where
  | granted
  | notGranted
  | thrown
deriving DecidableEq

/-- State of the basic variant, src/src/App.tsx lines 15-23: the useState
cells steps, isTracking, permissionState, error and the refs lastStepAtRef,
filteredMagnitudeRef (grouped as filter) and hasAutoStartedRef. -/
structure BasicState where
  steps : ℕ
  isTracking : Bool
  permissionState : PermissionState
  error : Option String
  filter : FilterState
  hasAutoStarted : Bool
deriving DecidableEq

/-- Initial state of the basic variant: steps 0, not tracking, permission
idle, no error, filter seeded with GRAVITY and lastStepAt 0, not yet
auto-started. -/
def basicInit : BasicState :=
  { steps := 0
    isTracking := false
    permissionState := .idle
    error := none
    filter := ⟨GRAVITY, 0⟩
    hasAutoStarted := false }

/-- startTracking of the basic variant (lines 70-109), as one atomic
transition: motionAvailable is the DeviceMotionEvent-in-window probe,
hasRequestPermission tells whether requestPermission is a function, and
platform is the outcome of the awaited requestPermission call (consumed
only on the branch that calls it). The transient pending state set before
the await is not observable in the atomic model; only the settled state
is recorded. -/
def basicStartTracking (motionAvailable hasRequestPermission : Bool)
    (platform : PermissionResult) (s : BasicState) : BasicState :=
  if motionAvailable = false then
    { s with error := some "Device Motion API is not supported in this context." }
  else
    let s1 := { s with error := none }
    if hasRequestPermission then
      match platform with
      | .granted =>
          let s2 := { s1 with permissionState := .granted }
          { s2 with filter := ⟨GRAVITY, 0⟩, steps := 0, isTracking := true }
      | .notGranted =>
          { s1 with permissionState := .denied,
                    error := some "Motion access was not granted." }
      | .thrown =>
          { s1 with permissionState := .denied,
                    error := some "Motion permission request failed." }
    else
      let s2 := { s1 with permissionState := .granted }
      { s2 with filter := ⟨GRAVITY, 0⟩, steps := 0, isTracking := true }

/-- The auto-start effect of the basic variant (lines 112-120): guarded by
hasAutoStartedRef, motionAvailable, permissionState idle and not tracking;
sets the ref and then runs startTracking (the setTimeout runs it on the
next tick of the same single-threaded loop). -/
def basicAutoStart (motionAvailable hasRequestPermission : Bool)
    (platform : PermissionResult) (s : BasicState) : BasicState :=
  if s.hasAutoStarted = false ∧ motionAvailable = true ∧
      s.permissionState = .idle ∧ s.isTracking = false then
    basicStartTracking motionAvailable hasRequestPermission platform
      { s with hasAutoStarted := true }
  else s

/-- Delivery of a devicemotion event in the basic variant: the listener is
subscribed only while isTracking (effect at lines 59-68), and handleMotion
increments steps by 1. -/
def basicMotion (msqrt : ℚ → ℚ) (ev : MotionEvent) (now : ℚ)
    (s : BasicState) : BasicState :=
  if s.isTracking then
    let r := handleMotion msqrt 1 s.filter s.steps ev now
    { s with filter := r.1, steps := r.2 }
  else s

/-- One event of the basic variant: an auto-start effect run, a direct
startTracking invocation, or a devicemotion delivery. -/
inductive BasicOp where
  | autoStart (motionAvailable hasRequestPermission : Bool) (platform : PermissionResult)
  | start (motionAvailable hasRequestPermission : Bool) (platform : PermissionResult)
  | motion (msqrt : ℚ → ℚ) (ev : MotionEvent) (now : ℚ)

/-- Apply one basic-variant event to the state. -/
def basicApply : BasicOp → BasicState → BasicState
  | .autoStart ma hrp p, s => basicAutoStart ma hrp p s
  | .start ma hrp p, s => basicStartTracking ma hrp p s
  | .motion msqrt ev now, s => basicMotion msqrt ev now s

/-- State of the chat variant, src/client/src/App.tsx lines 19-33 (omitting
the chat-panel state, which never touches the core): steps, isTracking,
permissionState, error, the filter refs, hasAutoStartedRef and
permissionRequestedRef. -/
structure ChatState where
  steps : ℕ
  isTracking : Bool
  permissionState : PermissionState
  error : Option String
  filter : FilterState
  hasAutoStarted : Bool
  permissionRequested : Bool
deriving DecidableEq

/-- Initial state of the chat variant: steps starts at 1000 (line 19). -/
def chatInit : ChatState :=
  { steps := 1000
    isTracking := false
    permissionState := .idle
    error := none
    filter := ⟨GRAVITY, 0⟩
    hasAutoStarted := false
    permissionRequested := false }

/-- The start block repeated inside every chat-variant trigger (for example
lines 130-136): guarded by hasAutoStartedRef and isTracking, it sets the
ref, re-seeds the filter, resets steps to 0 and activates tracking. -/
def chatTryStart (s : ChatState) : ChatState :=
  if s.hasAutoStarted = false ∧ s.isTracking = false then
    { s with hasAutoStarted := true
             filter := ⟨GRAVITY, 0⟩
             steps := 0
             isTracking := true }
  else s

/-- The proactive permission effect run on mount (chat variant lines
107-159), as one atomic transition. Bails out when motion is unavailable or
a request was already issued; with a requestPermission function it marks the
request issued and settles on the platform outcome, where a rejection only
clears permissionRequestedRef (lines 142-146) and changes nothing else;
without a requestPermission function it grants and starts directly. -/
def chatMountEffect (motionAvailable hasRequestPermission : Bool)
    (platform : PermissionResult) (s : ChatState) : ChatState :=
  if motionAvailable = false ∨ s.permissionRequested = true then s
  else if hasRequestPermission then
    let s1 := { s with permissionRequested := true }
    match platform with
    | .granted => chatTryStart { s1 with permissionState := .granted }
    | .notGranted =>
        { s1 with permissionState := .denied,
                  error := some "Motion access was not granted." }
    | .thrown => { s1 with permissionRequested := false }
  else
    chatTryStart { s with permissionRequested := true, permissionState := .granted }

/-- A first user touch or click reaching handleFirstInteraction (chat
variant lines 162-218): the listener effect is armed only while motion is
available and permissionState is idle; the handler returns early when a
request was already issued, and only acts when requestPermission is a
function. -/
def chatGestureInteraction (motionAvailable hasRequestPermission : Bool)
    (platform : PermissionResult) (s : ChatState) : ChatState :=
  if motionAvailable = false ∨ s.permissionState ≠ .idle then s
  else if s.permissionRequested = true then s
  else if hasRequestPermission then
    let s1 := { s with permissionRequested := true }
    match platform with
    | .granted => chatTryStart { s1 with permissionState := .granted }
    | .notGranted =>
        { s1 with permissionState := .denied,
                  error := some "Motion access was not granted." }
    | .thrown =>
        { s1 with permissionState := .denied,
                  error := some "Motion permission request failed." }
  else s

/-- The manual Enable Step Tracking button handler handleRequestPermission
(chat variant lines 221-269). It does not consult or set
permissionRequestedRef. -/
def chatHandleRequestPermission (motionAvailable hasRequestPermission : Bool)
    (platform : PermissionResult) (s : ChatState) : ChatState :=
  if motionAvailable = false then
    { s with error := some "Device Motion API is not supported in this context." }
  else if hasRequestPermission then
    let s1 := { s with error := none }
    match platform with
    | .granted => chatTryStart { s1 with permissionState := .granted }
    | .notGranted =>
        { s1 with permissionState := .denied,
                  error := some "Motion access was not granted." }
    | .thrown =>
        { s1 with permissionState := .denied,
                  error := some "Motion permission request failed." }
  else
    chatTryStart { s with permissionState := .granted }

/-- Delivery of a devicemotion event in the chat variant: listener
subscribed only while tracking (lines 95-104), increment 1000 (line 91). -/
def chatMotion (msqrt : ℚ → ℚ) (ev : MotionEvent) (now : ℚ)
    (s : ChatState) : ChatState :=
  if s.isTracking then
    let r := handleMotion msqrt 1000 s.filter s.steps ev now
    { s with filter := r.1, steps := r.2 }
  else s

/-- One of the three permission triggers of the chat variant. -/
inductive ChatTrigger where
  | mount (motionAvailable hasRequestPermission : Bool) (platform : PermissionResult)
  | gesture (motionAvailable hasRequestPermission : Bool) (platform : PermissionResult)
  | manual (motionAvailable hasRequestPermission : Bool) (platform : PermissionResult)

/-- Apply one chat-variant trigger to the state. -/
def chatApplyTrigger : ChatTrigger → ChatState → ChatState
  | .mount ma hrp p, s => chatMountEffect ma hrp p s
  | .gesture ma hrp p, s => chatGestureInteraction ma hrp p s
  | .manual ma hrp p, s => chatHandleRequestPermission ma hrp p s

/-- One event of the chat variant: a trigger or a devicemotion delivery. -/
inductive ChatOp where
  | trigger (t : ChatTrigger)
  | motion (msqrt : ℚ → ℚ) (ev : MotionEvent) (now : ℚ)

/-- Apply one chat-variant event to the state. -/
def chatApply : ChatOp → ChatState → ChatState
  | .trigger t, s => chatApplyTrigger t s
  | .motion msqrt ev now, s => chatMotion msqrt ev now s

/-- Run a list of chat-variant events from a state. -/
def chatRun : List ChatOp → ChatState → ChatState
  | [], s => s
  | op :: ops, s => chatRun ops (chatApply op s)

/-- Count, along a list of triggers, how many of them perform the start
block (observable as the flip of hasAutoStarted from false to true). -/
def chatResetCount : List ChatTrigger → ChatState → ℕ
  | [], _ => 0
  | t :: ts, s =>
      let s1 := chatApplyTrigger t s
      (if s.hasAutoStarted = false ∧ s1.hasAutoStarted = true then 1 else 0) +
        chatResetCount ts s1

/-- Run a list of basic-variant events from a state. -/
def basicRun : List BasicOp → BasicState → BasicState
  | [], s => s
  | op :: ops, s => basicRun ops (basicApply op s)

/-- The message computed during render when the Device Motion API probe
fails (line 29 of the basic variant, line 39 of the chat variant). -/
def apiError (motionAvailable : Bool) : Option String :=
  if motionAvailable then none
  else some "Device Motion API is not available in this browser."

/-- A JS number as it can occur in the motion handler: an ordinary value or
NaN. Used to check the failure semantics of handleMotion under IEEE NaN
propagation; the finite values are kept exact as rationals because only NaN
propagation, not rounding, is at issue. -/
inductive FVal where
  | nan
  | val (q : ℚ)
deriving DecidableEq

/-- IEEE addition restricted to this value set: NaN propagates. -/
def fAdd : FVal → FVal → FVal
  | .val a, .val b => .val (a + b)
  | _, _ => .nan

/-- IEEE multiplication restricted to this value set: NaN propagates. -/
def fMul : FVal → FVal → FVal
  | .val a, .val b => .val (a * b)
  | _, _ => .nan

/-- IEEE subtraction restricted to this value set: NaN propagates. -/
def fSub : FVal → FVal → FVal
  | .val a, .val b => .val (a - b)
  | _, _ => .nan

/-- Math.abs: NaN propagates. -/
def fAbs : FVal → FVal
  | .val a => .val |a|
  | .nan => .nan

/-- Math.sqrt: NaN on NaN or negative input, msqrt otherwise. -/
def fSqrt (msqrt : ℚ → ℚ) : FVal → FVal
  | .nan => .nan
  | .val q => if q < 0 then .nan else .val (msqrt q)

/-- The comparison a > b on JS numbers: any comparison with NaN is false. -/
def fGtBool : FVal → FVal → Bool
  | .val a, .val b => decide (b < a)
  | _, _ => false

/-- An acceleration whose axes are JS numbers or null. -/
structure AccelF where
  x : Option FVal
  y : Option FVal
  z : Option FVal
deriving DecidableEq

/-- A DeviceMotionEvent over such accelerations. -/
structure MotionEventF where
  accelerationIncludingGravity : Option AccelF
  acceleration : Option AccelF
deriving DecidableEq

/-- The nullish coalescing of the two acceleration fields, NaN-aware
variant. -/
def accelOfF (ev : MotionEventF) : Option AccelF :=
  ev.accelerationIncludingGravity.orElse fun _ => ev.acceleration

/-- Filter refs where filteredMagnitudeRef can hold NaN; lastStepAtRef only
ever receives Date.now values, which are ordinary numbers. -/
structure FilterStateF where
  filteredMagnitude : FVal
  lastStepAt : ℚ
deriving DecidableEq

/-- handleMotion replayed over JS-number semantics: the nullish ?? 0 on an
axis catches only null, never NaN, and every arithmetic step propagates
NaN. -/
def handleMotionF (msqrt : ℚ → ℚ) (stepIncrement : ℕ)
    (st : FilterStateF) (steps : ℕ) (ev : MotionEventF) (now : ℚ) :
    FilterStateF × ℕ :=
  match accelOfF ev with
  | none => (st, steps)
  | some a =>
      let x := a.x.getD (.val 0)
      let y := a.y.getD (.val 0)
      let z := a.z.getD (.val 0)
      let magnitude := fSqrt msqrt (fAdd (fAdd (fMul x x) (fMul y y)) (fMul z z))
      let filtered :=
        fAdd (fMul (.val SMOOTHING) st.filteredMagnitude)
          (fMul (.val (1 - SMOOTHING)) magnitude)
      let delta := fAbs (fSub magnitude filtered)
      if fGtBool delta (.val STEP_THRESHOLD) = true ∧
          now - st.lastStepAt > MIN_STEP_INTERVAL_MS then
        ({ filteredMagnitude := filtered, lastStepAt := now }, steps + stepIncrement)
      else
        ({ filteredMagnitude := filtered, lastStepAt := st.lastStepAt }, steps)

/-- A concrete motion event of acceleration (20, 0, 0), whose magnitude is
exactly 20. -/
def sampleX20 : MotionEvent :=
  { accelerationIncludingGravity := some ⟨some 20, some 0, some 0⟩
    acceleration := none }

/-- A concrete motion event with no acceleration data at all: both fields
null. -/
def sampleEmpty : MotionEvent :=
  { accelerationIncludingGravity := none, acceleration := none }

/-- A concrete motion event whose x axis reads NaN, as a faulty sensor can
deliver. -/
def sampleNaN : MotionEventF :=
  { accelerationIncludingGravity := some ⟨some .nan, some (.val 0), some (.val 0)⟩
    acceleration := none }

/-- An event of the chat variant issued in a context where the motion
capability is absent: every trigger carries a false motionAvailable probe
(motion deliveries are unrestricted; without a subscription they are
no-ops anyway). -/
def chatCapabilityAbsent : ChatOp → Prop
  | .trigger (.mount ma _ _) => ma = false
  | .trigger (.gesture ma _ _) => ma = false
  | .trigger (.manual ma _ _) => ma = false
  | .motion _ _ _ => True

/-- Same for the basic variant. -/
def basicCapabilityAbsent : BasicOp → Prop
  | .autoStart ma _ _ => ma = false
  | .start ma _ _ => ma = false
  | .motion _ _ _ => True

/-! Helper lemmas about the filter. -/

theorem processMagnitude_detected_iff (st : FilterState) (m now : ℚ) :
    (processMagnitude st m now).2 = true ↔
      |m - (SMOOTHING * st.filteredMagnitude + (1 - SMOOTHING) * m)| > STEP_THRESHOLD ∧
        now - st.lastStepAt > MIN_STEP_INTERVAL_MS := by
  simp only [processMagnitude]
  split
  case isTrue h => simpa using h
  case isFalse h => simpa using h

theorem processMagnitude_lastStepAt (st : FilterState) (m now : ℚ) :
    (processMagnitude st m now).1.lastStepAt =
      if (processMagnitude st m now).2 = true then now else st.lastStepAt := by
  simp only [processMagnitude]
  split <;> simp

theorem processMagnitude_filtered (st : FilterState) (m now : ℚ) :
    (processMagnitude st m now).1.filteredMagnitude =
      SMOOTHING * st.filteredMagnitude + (1 - SMOOTHING) * m := by
  simp only [processMagnitude]
  split <;> rfl

theorem processMagnitude_contract (st : FilterState) (m now : ℚ) :
    |m - (processMagnitude st m now).1.filteredMagnitude| =
      SMOOTHING * |m - st.filteredMagnitude| := by
  rw [processMagnitude_filtered]
  have h : m - (SMOOTHING * st.filteredMagnitude + (1 - SMOOTHING) * m) =
      SMOOTHING * (m - st.filteredMagnitude) := by ring
  rw [h, abs_mul]
  norm_num [SMOOTHING]

theorem processMagnitude_not_detected_of_small (st : FilterState) (m now : ℚ)
    (h : |m - st.filteredMagnitude| ≤ STEP_THRESHOLD / SMOOTHING) :
    (processMagnitude st m now).2 = false := by
  have hc := processMagnitude_contract st m now
  rw [processMagnitude_filtered] at hc
  simp only [processMagnitude]
  split
  case isTrue hcond =>
      exfalso
      have h1 := hcond.1
      rw [hc] at h1
      norm_num [STEP_THRESHOLD, SMOOTHING] at h h1
      linarith
  case isFalse hcond => rfl

theorem runConst_count_zero (m : ℚ) (ts : List ℚ) :
    ∀ st : FilterState,
      |m - st.filteredMagnitude| ≤ STEP_THRESHOLD / SMOOTHING →
      (runConst m st ts).2 = 0 := by
  induction ts with
  | nil => intro st _; rfl
  | cons t ts ih =>
      intro st h
      have hdet := processMagnitude_not_detected_of_small st m t h
      have hinv : |m - (processMagnitude st m t).1.filteredMagnitude| ≤
          STEP_THRESHOLD / SMOOTHING := by
        rw [processMagnitude_contract]
        have h0 := abs_nonneg (m - st.filteredMagnitude)
        norm_num [SMOOTHING, STEP_THRESHOLD] at h ⊢
        linarith
      simp only [runConst, hdet]
      simpa using ih _ hinv

theorem handleMotion_steps_ge (msqrt : ℚ → ℚ) (inc : ℕ) (st : FilterState)
    (steps : ℕ) (ev : MotionEvent) (now : ℚ) :
    steps ≤ (handleMotion msqrt inc st steps ev now).2 := by
  unfold handleMotion
  cases accelOf ev with
  | none => simp
  | some a =>
      simp only []
      split <;> simp

theorem runMotion_mono (msqrt : ℚ → ℚ) (inc : ℕ) (samples : List (MotionEvent × ℚ)) :
    ∀ (st : FilterState) (steps : ℕ),
      steps ≤ (runMotion msqrt inc st steps samples).2 := by
  induction samples with
  | nil => intro st steps; exact le_refl _
  | cons p rest ih =>
      intro st steps
      obtain ⟨ev, t⟩ := p
      calc steps ≤ (handleMotion msqrt inc st steps ev t).2 :=
            handleMotion_steps_ge msqrt inc st steps ev t
        _ ≤ _ := ih _ _

/-! Helper lemmas about the lifecycle. -/

theorem chatTrigger_dichotomy (t : ChatTrigger) (s : ChatState) :
    ((chatApplyTrigger t s).hasAutoStarted = s.hasAutoStarted ∧
      (chatApplyTrigger t s).steps = s.steps ∧
      (chatApplyTrigger t s).isTracking = s.isTracking ∧
      (chatApplyTrigger t s).filter = s.filter)
    ∨ (s.hasAutoStarted = false ∧ s.isTracking = false ∧
        (chatApplyTrigger t s).hasAutoStarted = true ∧
        (chatApplyTrigger t s).steps = 0 ∧
        (chatApplyTrigger t s).isTracking = true ∧
        (chatApplyTrigger t s).filter = ⟨GRAVITY, 0⟩) := by
  cases t <;> rename_i ma hrp p <;> cases p <;>
    simp only [chatApplyTrigger, chatMountEffect, chatGestureInteraction,
      chatHandleRequestPermission, chatTryStart] <;>
    split_ifs <;> simp_all

theorem chatTrigger_hasAutoStarted_mono (t : ChatTrigger) (s : ChatState)
    (h : s.hasAutoStarted = true) : (chatApplyTrigger t s).hasAutoStarted = true := by
  rcases chatTrigger_dichotomy t s with ⟨h1, -⟩ | ⟨h1, -⟩
  · rw [h1, h]
  · rw [h1] at h; exact absurd h (by simp)

theorem chatResetCount_zero_of_started (ts : List ChatTrigger) :
    ∀ s : ChatState, s.hasAutoStarted = true → chatResetCount ts s = 0 := by
  induction ts with
  | nil => intro s _; rfl
  | cons t ts ih =>
      intro s h
      simp only [chatResetCount, h]
      rw [if_neg (by simp [h])]
      simpa using ih _ (chatTrigger_hasAutoStarted_mono t s h)

theorem chatResetCount_le_one (ts : List ChatTrigger) :
    ∀ s : ChatState, chatResetCount ts s ≤ 1 := by
  induction ts with
  | nil => intro s; simp [chatResetCount]
  | cons t ts ih =>
      intro s
      simp only [chatResetCount]
      by_cases hflip : s.hasAutoStarted = false ∧ (chatApplyTrigger t s).hasAutoStarted = true
      · rw [if_pos hflip, chatResetCount_zero_of_started ts _ hflip.2]
      · rw [if_neg hflip]
        simpa using ih (chatApplyTrigger t s)

theorem chatTrigger_start_reset (t : ChatTrigger) (s : ChatState)
    (h1 : s.isTracking = false) (h2 : (chatApplyTrigger t s).isTracking = true) :
    (chatApplyTrigger t s).filter = ⟨GRAVITY, 0⟩ ∧ (chatApplyTrigger t s).steps = 0 := by
  rcases chatTrigger_dichotomy t s with ⟨-, -, h3, -⟩ | ⟨-, -, -, h4, -, h5⟩
  · rw [h3, h1] at h2
    exact absurd h2 (by simp)
  · exact ⟨h5, h4⟩

theorem chatOp_start_reset (op : ChatOp) (s : ChatState)
    (h1 : s.isTracking = false) (h2 : (chatApply op s).isTracking = true) :
    (chatApply op s).filter = ⟨GRAVITY, 0⟩ ∧ (chatApply op s).steps = 0 := by
  cases op with
  | trigger t => exact chatTrigger_start_reset t s h1 h2
  | motion msq ev t =>
      simp only [chatApply, chatMotion, h1] at h2
      simp at h2
      rw [h2] at h1
      exact absurd h1 (by simp)

theorem basicOp_start_reset (op : BasicOp) (s : BasicState)
    (h1 : s.isTracking = false) (h2 : (basicApply op s).isTracking = true) :
    (basicApply op s).filter = ⟨GRAVITY, 0⟩ ∧ (basicApply op s).steps = 0 := by
  cases op with
  | autoStart ma hrp p =>
      simp only [basicApply, basicAutoStart, basicStartTracking] at h2 ⊢
      cases p <;> split_ifs at h2 ⊢ <;> simp_all
  | start ma hrp p =>
      simp only [basicApply, basicStartTracking] at h2 ⊢
      cases p <;> split_ifs at h2 ⊢ <;> simp_all
  | motion msq ev t =>
      simp only [basicApply, basicMotion, h1] at h2
      simp at h2
      rw [h2] at h1
      exact absurd h1 (by simp)

theorem chat_absent_invariant (ops : List ChatOp) :
    ∀ s : ChatState, (∀ op ∈ ops, chatCapabilityAbsent op) →
      s.permissionState = .idle → s.isTracking = false →
      (chatRun ops s).permissionState = .idle ∧ (chatRun ops s).isTracking = false := by
  induction ops with
  | nil => intro s _ h1 h2; exact ⟨h1, h2⟩
  | cons op ops ih =>
      intro s hall h1 h2
      have hop : chatCapabilityAbsent op := hall op (by simp)
      have hrest : ∀ o ∈ ops, chatCapabilityAbsent o := fun o ho => hall o (by simp [ho])
      have hstep : (chatApply op s).permissionState = .idle ∧
          (chatApply op s).isTracking = false := by
        cases op with
        | trigger t =>
            cases t with
            | mount ma hrp p =>
                have hma : ma = false := hop
                subst hma
                exact ⟨by simp [chatApply, chatApplyTrigger, chatMountEffect, h1],
                  by simp [chatApply, chatApplyTrigger, chatMountEffect, h2]⟩
            | gesture ma hrp p =>
                have hma : ma = false := hop
                subst hma
                exact ⟨by simp [chatApply, chatApplyTrigger, chatGestureInteraction, h1],
                  by simp [chatApply, chatApplyTrigger, chatGestureInteraction, h2]⟩
            | manual ma hrp p =>
                have hma : ma = false := hop
                subst hma
                exact ⟨by simp [chatApply, chatApplyTrigger, chatHandleRequestPermission, h1],
                  by simp [chatApply, chatApplyTrigger, chatHandleRequestPermission, h2]⟩
        | motion msq ev t =>
            exact ⟨by simp [chatApply, chatMotion, h2, h1], by simp [chatApply, chatMotion, h2]⟩
      simp only [chatRun]
      exact ih _ hrest hstep.1 hstep.2

theorem basic_absent_invariant (ops : List BasicOp) :
    ∀ s : BasicState, (∀ op ∈ ops, basicCapabilityAbsent op) →
      s.permissionState = .idle → s.isTracking = false →
      (basicRun ops s).permissionState = .idle ∧ (basicRun ops s).isTracking = false := by
  induction ops with
  | nil => intro s _ h1 h2; exact ⟨h1, h2⟩
  | cons op ops ih =>
      intro s hall h1 h2
      have hop : basicCapabilityAbsent op := hall op (by simp)
      have hrest : ∀ o ∈ ops, basicCapabilityAbsent o := fun o ho => hall o (by simp [ho])
      have hstep : (basicApply op s).permissionState = .idle ∧
          (basicApply op s).isTracking = false := by
        cases op with
        | autoStart ma hrp p =>
            have hma : ma = false := hop
            subst hma
            exact ⟨by simp [basicApply, basicAutoStart, h1], by simp [basicApply, basicAutoStart, h2]⟩
        | start ma hrp p =>
            have hma : ma = false := hop
            subst hma
            exact ⟨by simp [basicApply, basicStartTracking, h1],
              by simp [basicApply, basicStartTracking, h2]⟩
        | motion msq ev t =>
            exact ⟨by simp [basicApply, basicMotion, h2, h1], by simp [basicApply, basicMotion, h2]⟩
      simp only [basicRun]
      exact ih _ hrest hstep.1 hstep.2

theorem fAdd_nan_left (x : FVal) : fAdd .nan x = .nan := by cases x <;> rfl

theorem fSub_nan_right (x : FVal) : fSub x .nan = .nan := by cases x <;> rfl

theorem fGtBool_nan_left (x : FVal) : fGtBool .nan x = false := by cases x <;> rfl

theorem handleMotionF_nan_state (msqrt : ℚ → ℚ) (inc : ℕ) (lastAt : ℚ) (steps : ℕ)
    (ev : MotionEventF) (now : ℚ) :
    (handleMotionF msqrt inc ⟨.nan, lastAt⟩ steps ev now).1.filteredMagnitude = .nan ∧
      (handleMotionF msqrt inc ⟨.nan, lastAt⟩ steps ev now).2 = steps := by
  unfold handleMotionF
  cases accelOfF ev with
  | none => simp
  | some a =>
      simp only [fMul, fAdd_nan_left, fSub_nan_right, fAbs, fGtBool_nan_left]
      simp

/-! Claim theorems. -/

/-- C1: a sample carrying an acceleration reading of magnitude m detects a
step iff the deviation between m and the updated filter value strictly
exceeds the 1.1 threshold and the elapsed time since lastStepAt strictly
exceeds 400 ms; a detection records its own timestamp and a non-detection
keeps the old one, so a second sample delivered at most 400 ms after a
detected step is never detected, and a deviation or an elapsed time exactly
equal to its bound does not count as a step. -/
theorem C1_step_detection (st : FilterState) (m now : ℚ) :
    ((processMagnitude st m now).2 = true ↔
      |m - (SMOOTHING * st.filteredMagnitude + (1 - SMOOTHING) * m)| > STEP_THRESHOLD ∧
        now - st.lastStepAt > MIN_STEP_INTERVAL_MS)
    ∧ ((processMagnitude st m now).2 = true →
        (processMagnitude st m now).1.lastStepAt = now)
    ∧ ((processMagnitude st m now).2 = false →
        (processMagnitude st m now).1.lastStepAt = st.lastStepAt)
    ∧ (∀ st₂ : FilterState, ∀ m₂ t₂ : ℚ,
        (processMagnitude st m now).2 = true →
        st₂.lastStepAt = (processMagnitude st m now).1.lastStepAt →
        t₂ - now ≤ MIN_STEP_INTERVAL_MS →
        (processMagnitude st₂ m₂ t₂).2 = false)
    ∧ (|m - (SMOOTHING * st.filteredMagnitude + (1 - SMOOTHING) * m)| = STEP_THRESHOLD →
        (processMagnitude st m now).2 = false)
    ∧ (now - st.lastStepAt = MIN_STEP_INTERVAL_MS →
        (processMagnitude st m now).2 = false) := by
  refine ⟨processMagnitude_detected_iff st m now, ?_, ?_, ?_, ?_, ?_⟩
  · intro h
    rw [processMagnitude_lastStepAt, if_pos h]
  · intro h
    rw [processMagnitude_lastStepAt, if_neg (by simp [h])]
  · intro st₂ m₂ t₂ hdet hlast ht
    have hnow : st₂.lastStepAt = now := by
      rw [hlast, processMagnitude_lastStepAt, if_pos hdet]
    by_contra hne
    have h2 := (processMagnitude_detected_iff st₂ m₂ t₂).mp (by simpa using hne)
    rw [hnow] at h2
    have h3 := h2.2
    norm_num [MIN_STEP_INTERVAL_MS] at h3 ht
    linarith
  · intro h
    rw [processMagnitude]
    simp only [h]
    rw [if_neg]
    rintro ⟨h1, -⟩
    exact absurd h1 (lt_irrefl _)
  · intro h
    rw [processMagnitude]
    rw [if_neg]
    rintro ⟨-, h2⟩
    rw [h] at h2
    exact absurd h2 (lt_irrefl _)

/-- Witness for C1: from the fresh filter state, a sample of magnitude 20
at t = 1000 detects a step, and a sample 200 ms later does not. -/
theorem C1_step_detection_witness :
    (processMagnitude ⟨GRAVITY, 0⟩ 20 1000).2 = true ∧
      (processMagnitude (processMagnitude ⟨GRAVITY, 0⟩ 20 1000).1 20 1200).2 = false := by
  have hdet : (processMagnitude ⟨GRAVITY, 0⟩ 20 1000).2 = true := by
    simp only [processMagnitude]
    norm_num [GRAVITY, SMOOTHING, STEP_THRESHOLD, MIN_STEP_INTERVAL_MS, lt_abs]
  exact ⟨hdet, (C1_step_detection ⟨GRAVITY, 0⟩ 20 1000).2.2.2.1 _ 20 1200 hdet rfl
    (by norm_num [MIN_STEP_INTERVAL_MS])⟩

/-- C2 counterexample: in the basic variant, run the auto-start trigger
(which obtains granted and starts tracking), then one motion sample that
counts a step; a further invocation of the startTracking entry point, while
tracking is already active, resets StepCount from 1 back to 0 instead of
leaving it unchanged, refuting the claim that every later trigger
invocation leaves FilterState, StepCount and TrackingActive unchanged. -/
theorem C2_start_not_idempotent :
    (basicRun [.autoStart true false .granted, .motion ratSqrt sampleX20 1000]
        basicInit).isTracking = true ∧
      (basicRun [.autoStart true false .granted, .motion ratSqrt sampleX20 1000]
        basicInit).steps = 1 ∧
      (basicStartTracking true false .granted
        (basicRun [.autoStart true false .granted, .motion ratSqrt sampleX20 1000]
          basicInit)).steps = 0 := by
  simp only [basicRun, basicApply, basicAutoStart, basicStartTracking, basicMotion,
    basicInit, handleMotion, accelOf, magnitudeSq, processMagnitude, sampleX20]
  norm_num [ratSqrt, GRAVITY, SMOOTHING, STEP_THRESHOLD, MIN_STEP_INTERVAL_MS, lt_abs]

/-- C2 amended: in the chat variant every trigger invocation either leaves
hasAutoStarted, StepCount, TrackingActive and FilterState unchanged or is
the unique invocation that flips hasAutoStarted and performs the reset, so
along any interleaving of the mount, gesture and manual triggers the start
block runs at most once; in the basic variant the auto-start effect is a
no-op once hasAutoStarted is set, but the startTracking entry point itself
is not idempotent (see the counterexample). -/
theorem C2_start_once_amended :
    (∀ (t : ChatTrigger) (s : ChatState),
      ((chatApplyTrigger t s).hasAutoStarted = s.hasAutoStarted ∧
        (chatApplyTrigger t s).steps = s.steps ∧
        (chatApplyTrigger t s).isTracking = s.isTracking ∧
        (chatApplyTrigger t s).filter = s.filter)
      ∨ (s.hasAutoStarted = false ∧ s.isTracking = false ∧
          (chatApplyTrigger t s).hasAutoStarted = true ∧
          (chatApplyTrigger t s).steps = 0 ∧
          (chatApplyTrigger t s).isTracking = true ∧
          (chatApplyTrigger t s).filter = ⟨GRAVITY, 0⟩))
    ∧ (∀ (ts : List ChatTrigger) (s : ChatState), chatResetCount ts s ≤ 1)
    ∧ (∀ (ma hrp : Bool) (p : PermissionResult) (s : BasicState),
        s.hasAutoStarted = true → basicAutoStart ma hrp p s = s) :=
  ⟨chatTrigger_dichotomy, fun ts s => chatResetCount_le_one ts s,
   fun ma hrp p s h => by simp [basicAutoStart, h]⟩

/-- Witness for C2 amended: the auto-start effect is a no-op on a state
whose hasAutoStarted flag is already set. -/
theorem C2_start_once_witness :
    ({ basicInit with hasAutoStarted := true } : BasicState).hasAutoStarted = true ∧
      basicAutoStart true true .granted { basicInit with hasAutoStarted := true } =
        { basicInit with hasAutoStarted := true } :=
  ⟨rfl, C2_start_once_amended.2.2 true true .granted _ rfl⟩

/-- C3: in both variants, every event that transitions tracking from
inactive to active re-seeds filteredMagnitude to the gravity constant and
lastStepAt to the sentinel 0, the exact filter state of a cold start, so a
restart detects steps exactly as a fresh session does. -/
theorem C3_restart_reseeds_filter :
    (∀ (op : BasicOp) (s : BasicState), s.isTracking = false →
        (basicApply op s).isTracking = true →
        (basicApply op s).filter = ⟨GRAVITY, 0⟩ ∧
          (basicApply op s).filter = basicInit.filter)
    ∧ (∀ (op : ChatOp) (s : ChatState), s.isTracking = false →
        (chatApply op s).isTracking = true →
        (chatApply op s).filter = ⟨GRAVITY, 0⟩ ∧
          (chatApply op s).filter = chatInit.filter) :=
  ⟨fun op s h1 h2 => ⟨(basicOp_start_reset op s h1 h2).1, (basicOp_start_reset op s h1 h2).1⟩,
   fun op s h1 h2 => ⟨(chatOp_start_reset op s h1 h2).1, (chatOp_start_reset op s h1 h2).1⟩⟩

/-- Witness for C3: the auto-start of the basic variant transitions
tracking from inactive to active and leaves the filter re-seeded. -/
theorem C3_restart_reseeds_witness :
    basicInit.isTracking = false ∧
      (basicApply (.autoStart true false .granted) basicInit).isTracking = true ∧
      (basicApply (.autoStart true false .granted) basicInit).filter = ⟨GRAVITY, 0⟩ := by
  have h2 : (basicApply (.autoStart true false .granted) basicInit).isTracking = true := by
    simp [basicApply, basicAutoStart, basicStartTracking, basicInit]
  exact ⟨rfl, h2,
    (C3_restart_reseeds_filter.1 (.autoStart true false .granted) basicInit rfl h2).1⟩

/-- C4 counterexample: in the basic variant the consent request runs from
the auto-start path, outside any user gesture, so a gesture-reasons
rejection is exactly the rejection that call site can hit; its catch
(src/src/App.tsx lines 96-100) sets PermissionState to denied with the
request-failed error — not idle — and the variant has no gesture listener
to re-arm, refuting the claim as stated for the cited basic-variant
source. -/
theorem C4_basic_thrown_denied :
    (basicApply (.autoStart true true .thrown) basicInit).permissionState =
        PermissionState.denied ∧
      (basicApply (.autoStart true true .thrown) basicInit).permissionState ≠
        PermissionState.idle ∧
      (basicApply (.autoStart true true .thrown) basicInit).error =
        some "Motion permission request failed." ∧
      (basicApply (.autoStart true true .thrown) basicInit).isTracking = false := by
  simp [basicApply, basicAutoStart, basicStartTracking, basicInit]

/-- C4 amended: in the chat variant — the only one implementing the
gesture-retry path — a rejection of the proactive consent request leaves
PermissionState at idle, not denied, and clears the request-issued flag so
the one-shot gesture listener is re-armed; a subsequent user click whose
retried request resolves to granted then sets PermissionState to granted
and starts tracking. In the basic variant, which has no gesture listener,
the same rejection inside startTracking sets PermissionState to denied
with a request-failed error and does not start tracking. -/
theorem C4_gesture_required_rearm (s : ChatState)
    (h1 : s.permissionState = .idle) (h2 : s.permissionRequested = false)
    (h3 : s.hasAutoStarted = false) (h4 : s.isTracking = false) :
    (chatMountEffect true true .thrown s).permissionState = .idle ∧
    (chatMountEffect true true .thrown s).permissionState ≠ .denied ∧
    (chatMountEffect true true .thrown s).permissionRequested = false ∧
    (chatGestureInteraction true true .granted
      (chatMountEffect true true .thrown s)).permissionState = .granted ∧
    (chatGestureInteraction true true .granted
      (chatMountEffect true true .thrown s)).isTracking = true ∧
    (chatGestureInteraction true true .granted
      (chatMountEffect true true .thrown s)).steps = 0 ∧
    (∀ s2 : BasicState,
      (basicStartTracking true true .thrown s2).permissionState = .denied ∧
        (basicStartTracking true true .thrown s2).isTracking = s2.isTracking ∧
        (basicStartTracking true true .thrown s2).error =
          some "Motion permission request failed.") := by
  have hm : chatMountEffect true true .thrown s = { s with permissionRequested := false } := by
    simp [chatMountEffect, h2]
  rw [hm]
  refine ⟨by simp [h1], by simp [h1], rfl, ?_, ?_, ?_, ?_⟩
  · simp [chatGestureInteraction, chatTryStart, h1, h3, h4]
  · simp [chatGestureInteraction, chatTryStart, h1, h3, h4]
  · simp [chatGestureInteraction, chatTryStart, h1, h3, h4]
  · intro s2
    refine ⟨?_, ?_, ?_⟩ <;> simp [basicStartTracking]

/-- Witness for C4: from the initial chat state, the rejected proactive
request leaves permission idle and the later granted gesture retry starts
tracking. -/
theorem C4_gesture_required_witness :
    chatInit.permissionState = .idle ∧ chatInit.permissionRequested = false ∧
      chatInit.hasAutoStarted = false ∧ chatInit.isTracking = false ∧
      (chatMountEffect true true .thrown chatInit).permissionState = .idle ∧
      (chatGestureInteraction true true .granted
        (chatMountEffect true true .thrown chatInit)).isTracking = true :=
  ⟨rfl, rfl, rfl, rfl, (C4_gesture_required_rearm chatInit rfl rfl rfl rfl).1,
    (C4_gesture_required_rearm chatInit rfl rfl rfl rfl).2.2.2.2.1⟩

/-- C5 counterexample: holding the magnitude constant at 20, the sample
after the first one still detects a step (the two-sample run from the fresh
filter state detects 2 steps, and the run restarted after the first sample
detects 1 more), so the detected-step count after the first sample is not 0
for every constant magnitude. -/
theorem C5_constant_magnitude_counterexample :
    (runConst 20 ⟨GRAVITY, 0⟩ [1000, 2000]).2 = 2 ∧
      (runConst 20 (processMagnitude ⟨GRAVITY, 0⟩ 20 1000).1 [2000]).2 = 1 := by
  constructor
  · simp only [runConst, processMagnitude]
    norm_num [GRAVITY, SMOOTHING, STEP_THRESHOLD, MIN_STEP_INTERVAL_MS, lt_abs]
  · simp only [runConst, processMagnitude]
    norm_num [GRAVITY, SMOOTHING, STEP_THRESHOLD, MIN_STEP_INTERVAL_MS, lt_abs]

/-- C5 amended: with the magnitude held constant the deviation contracts by
the factor 0.8 at every sample and hence converges to 0, and from any
filter state whose baseline is within THRESHOLD / SMOOTHING (= 1.375) of
the magnitude no step is ever detected, whatever the sequence length and
timestamps; from the initial 9.81 baseline this holds from the very first
sample only when the constant magnitude is within 1.375 of 9.81, while
larger constant magnitudes may detect steps at finitely many further
samples after the first (see the counterexample). -/
theorem C5_constant_magnitude_amended :
    (∀ (st : FilterState) (m now : ℚ),
      |m - (processMagnitude st m now).1.filteredMagnitude| =
        SMOOTHING * |m - st.filteredMagnitude|)
    ∧ (∀ (m : ℚ) (st : FilterState) (ts : List ℚ),
        |m - st.filteredMagnitude| ≤ STEP_THRESHOLD / SMOOTHING →
        (runConst m st ts).2 = 0) :=
  ⟨fun st m now => processMagnitude_contract st m now,
   fun m st ts h => runConst_count_zero m ts st h⟩

/-- Witness for C5 amended: the constant magnitude 10 is within the bound
of the fresh 9.81 baseline and a three-sample run detects no step. -/
theorem C5_constant_magnitude_witness :
    |10 - (FilterState.mk GRAVITY 0).filteredMagnitude| ≤ STEP_THRESHOLD / SMOOTHING ∧
      (runConst 10 ⟨GRAVITY, 0⟩ [1000, 2000, 3000]).2 = 0 := by
  have h : |10 - (FilterState.mk GRAVITY 0).filteredMagnitude| ≤
      STEP_THRESHOLD / SMOOTHING := by
    norm_num [GRAVITY, STEP_THRESHOLD, SMOOTHING, abs_le]
  exact ⟨h, C5_constant_magnitude_amended.2 10 ⟨GRAVITY, 0⟩ [1000, 2000, 3000] h⟩

/-- C6: a sample with both acceleration fields null is a complete no-op
(the filter state and the step count are returned unchanged and no
detection is attempted), while a sample carrying an acceleration reading
always applies the filter update filteredMagnitude = 0.8 * old + 0.2 * m,
whether or not a step is detected, and a missing individual axis behaves
exactly as an explicit 0 reading. -/
theorem C6_no_accel_noop_filter_always (msqrt : ℚ → ℚ) (inc : ℕ) (st : FilterState)
    (steps : ℕ) (ev : MotionEvent) (now : ℚ) :
    (accelOf ev = none → handleMotion msqrt inc st steps ev now = (st, steps))
    ∧ (∀ a : Accel, accelOf ev = some a →
        (handleMotion msqrt inc st steps ev now).1.filteredMagnitude =
          SMOOTHING * st.filteredMagnitude + (1 - SMOOTHING) * msqrt (magnitudeSq a))
    ∧ (∀ a : Accel, magnitudeSq a =
        magnitudeSq ⟨some (a.x.getD 0), some (a.y.getD 0), some (a.z.getD 0)⟩) := by
  refine ⟨?_, ?_, ?_⟩
  · intro h
    unfold handleMotion
    rw [h]
  · intro a h
    unfold handleMotion
    rw [h]
    simp only []
    exact processMagnitude_filtered st (msqrt (magnitudeSq a)) now
  · intro a
    simp [magnitudeSq]

/-- Witness for C6: the all-null sample leaves a concrete filter state and
step count untouched. -/
theorem C6_no_accel_witness :
    accelOf sampleEmpty = none ∧
      handleMotion ratSqrt 1 ⟨GRAVITY, 5⟩ 7 sampleEmpty 1000 = (⟨GRAVITY, 5⟩, 7) :=
  ⟨rfl, (C6_no_accel_noop_filter_always ratSqrt 1 ⟨GRAVITY, 5⟩ 7 sampleEmpty 1000).1 rfl⟩

/-- C7: replaying handleMotion under IEEE NaN semantics, a sample whose x
axis reads NaN drives the computed magnitude to NaN, and the unconditional
filter update stores that NaN into filteredMagnitude, so the bad reading is
propagated into FilterState instead of being clamped or ignored; from then
on the poisoned filter state keeps NaN forever and no step is ever counted
again, although no exception is raised and StepCount itself is never
corrupted. -/
theorem C7_nan_propagates_into_filter :
    ((handleMotionF ratSqrt 1 ⟨.val GRAVITY, 0⟩ 0 sampleNaN 1000).1.filteredMagnitude =
        FVal.nan ∧
      (handleMotionF ratSqrt 1 ⟨.val GRAVITY, 0⟩ 0 sampleNaN 1000).2 = 0)
    ∧ (∀ (msqrt : ℚ → ℚ) (inc : ℕ) (lastAt : ℚ) (steps : ℕ)
        (ev : MotionEventF) (now : ℚ),
        (handleMotionF msqrt inc ⟨FVal.nan, lastAt⟩ steps ev now).1.filteredMagnitude =
            FVal.nan ∧
          (handleMotionF msqrt inc ⟨FVal.nan, lastAt⟩ steps ev now).2 = steps) :=
  ⟨by simp [handleMotionF, sampleNaN, accelOfF, fMul, fAdd, fSub, fAbs, fSqrt, fGtBool],
   fun msqrt inc lastAt steps ev now => handleMotionF_nan_state msqrt inc lastAt steps ev now⟩

/-- C8: one processed sample either leaves the step counter unchanged or
adds exactly the configured increment, any run of motion samples leaves the
counter non-decreasing, and at the lifecycle level of either variant every
event either does not decrease StepCount or is a (re)start of tracking that
resets it to the configured start value 0 — so between two consecutive
restarts StepCount is monotonically non-decreasing. -/
theorem C8_stepcount_monotone (msqrt : ℚ → ℚ) (inc : ℕ) (st : FilterState)
    (steps : ℕ) (ev : MotionEvent) (now : ℚ) (samples : List (MotionEvent × ℚ)) :
    ((handleMotion msqrt inc st steps ev now).2 = steps ∨
      (handleMotion msqrt inc st steps ev now).2 = steps + inc)
    ∧ steps ≤ (runMotion msqrt inc st steps samples).2
    ∧ (∀ (op : BasicOp) (s : BasicState),
        s.steps ≤ (basicApply op s).steps ∨
          ((basicApply op s).steps = 0 ∧ (basicApply op s).isTracking = true))
    ∧ (∀ (op : ChatOp) (s : ChatState),
        s.steps ≤ (chatApply op s).steps ∨
          ((chatApply op s).steps = 0 ∧ (chatApply op s).isTracking = true)) := by
  refine ⟨?_, runMotion_mono msqrt inc samples st steps, ?_, ?_⟩
  · unfold handleMotion
    cases accelOf ev with
    | none => simp
    | some a =>
        simp only []
        split <;> simp
  · intro op s
    cases op with
    | autoStart ma hrp p =>
        simp only [basicApply, basicAutoStart]
        split
        · simp only [basicStartTracking]
          split_ifs
          · simp
          · cases p <;> simp
          · simp
        · simp
    | start ma hrp p =>
        simp only [basicApply, basicStartTracking]
        split_ifs
        · simp
        · cases p <;> simp
        · simp
    | motion msq ev2 t =>
        simp only [basicApply, basicMotion]
        split
        · left; exact handleMotion_steps_ge msq 1 s.filter s.steps ev2 t
        · left; exact le_refl _
  · intro op s
    cases op with
    | trigger t =>
        cases t with
        | mount ma hrp p =>
            simp only [chatApply, chatApplyTrigger, chatMountEffect, chatTryStart]
            split_ifs <;> first | simp | (cases p <;> simp)
        | gesture ma hrp p =>
            simp only [chatApply, chatApplyTrigger, chatGestureInteraction, chatTryStart]
            split_ifs <;> first | simp | (cases p <;> simp)
        | manual ma hrp p =>
            simp only [chatApply, chatApplyTrigger, chatHandleRequestPermission, chatTryStart]
            split_ifs <;> first | simp | (cases p <;> simp)
    | motion msq ev2 t =>
        simp only [chatApply, chatMotion]
        split
        · left; exact handleMotion_steps_ge msq 1000 s.filter s.steps ev2 t
        · left; exact le_refl _

/-- C9: when the motion capability is absent, the capability-missing
message is surfaced, every trigger of either variant returns a state that
does not depend on any platform response (so no consent request is ever
attempted) and at most sets the unsupported-context error, and along every
event sequence whose triggers see the capability as absent, PermissionState
stays idle and tracking never starts. -/
theorem C9_capability_missing :
    apiError false = some "Device Motion API is not available in this browser."
    ∧ (∀ (hrp : Bool) (p : PermissionResult) (s : ChatState),
        chatMountEffect false hrp p s = s)
    ∧ (∀ (hrp : Bool) (p : PermissionResult) (s : ChatState),
        chatGestureInteraction false hrp p s = s)
    ∧ (∀ (hrp : Bool) (p : PermissionResult) (s : ChatState),
        chatHandleRequestPermission false hrp p s =
          { s with error := some "Device Motion API is not supported in this context." })
    ∧ (∀ (hrp : Bool) (p : PermissionResult) (s : BasicState),
        basicStartTracking false hrp p s =
          { s with error := some "Device Motion API is not supported in this context." })
    ∧ (∀ (hrp : Bool) (p : PermissionResult) (s : BasicState),
        basicAutoStart false hrp p s = s)
    ∧ (∀ ops : List ChatOp, (∀ op ∈ ops, chatCapabilityAbsent op) →
        (chatRun ops chatInit).permissionState = .idle ∧
          (chatRun ops chatInit).isTracking = false)
    ∧ (∀ ops : List BasicOp, (∀ op ∈ ops, basicCapabilityAbsent op) →
        (basicRun ops basicInit).permissionState = .idle ∧
          (basicRun ops basicInit).isTracking = false) := by
  refine ⟨rfl, ?_, ?_, ?_, ?_, ?_, ?_, ?_⟩
  · intro hrp p s; simp [chatMountEffect]
  · intro hrp p s; simp [chatGestureInteraction]
  · intro hrp p s; simp [chatHandleRequestPermission]
  · intro hrp p s; simp [basicStartTracking]
  · intro hrp p s; simp [basicAutoStart]
  · intro ops h; exact chat_absent_invariant ops chatInit h rfl rfl
  · intro ops h; exact basic_absent_invariant ops basicInit h rfl rfl

/-- Witness for C9: a capability-absent manual retry leaves the permission
state idle. -/
theorem C9_capability_missing_witness :
    (∀ op ∈ ([.trigger (.manual false true .granted)] : List ChatOp),
        chatCapabilityAbsent op) ∧
      (chatRun [.trigger (.manual false true .granted)] chatInit).permissionState = .idle := by
  have h : ∀ op ∈ ([.trigger (.manual false true .granted)] : List ChatOp),
      chatCapabilityAbsent op := by
    intro op hop
    simp only [List.mem_singleton] at hop
    subst hop
    rfl
  exact ⟨h, (C9_capability_missing.2.2.2.2.2.2.1 _ h).1⟩

/-- C10: the chat variant initialises StepCount to 1000 before tracking
ever starts, and every trigger that transitions tracking from inactive to
active resets StepCount to 0, so the externally observable counter drops
from 1000 to 0 at the first transition into tracking even though no step
was counted. -/
theorem C10_initial_counter_drop :
    chatInit.steps = 1000 ∧ chatInit.isTracking = false ∧
      (∀ (t : ChatTrigger) (s : ChatState), s.isTracking = false →
        (chatApplyTrigger t s).isTracking = true → (chatApplyTrigger t s).steps = 0) :=
  ⟨rfl, rfl, fun t s h1 h2 => (chatTrigger_start_reset t s h1 h2).2⟩

/-- Witness for C10: the manual trigger on the initial chat state starts
tracking and the counter drops from 1000 to 0. -/
theorem C10_initial_counter_drop_witness :
    chatInit.steps = 1000 ∧ chatInit.isTracking = false ∧
      (chatApplyTrigger (.manual true false .granted) chatInit).isTracking = true ∧
      (chatApplyTrigger (.manual true false .granted) chatInit).steps = 0 := by
  have h2 : (chatApplyTrigger (.manual true false .granted) chatInit).isTracking = true := by
    simp [chatApplyTrigger, chatHandleRequestPermission, chatTryStart, chatInit]
  exact ⟨rfl, rfl, h2, C10_initial_counter_drop.2.2 _ chatInit rfl h2⟩

end Buildathon
